import Mathlib

/-!
Verification development for the "& Other Stories" catalog scraper.

The Python sources are shallowly embedded: parsed pages (BeautifulSoup
documents) become a `Soup` structure recording the results of exactly the
selector queries the code performs, JSON values and Python's dynamically
typed dictionaries become the `PyVal` inductive, network/store behaviour
becomes explicit function parameters, and every fallible Python path is
modelled in `Option` (a `none` body result corresponds to an exception
reaching the surrounding `try/except`, which logs and returns `None`).
-/

set_option maxRecDepth 4000

/-- An exact decimal number `num / 10 ^ scale`: the model of a Python
`float` as the scraper produces them (every float in the pipeline comes
from parsing a decimal literal or an integer). Kept unreduced so that all
computations are kernel-reducible; `Dec.toRat` gives the value. -/
structure Dec where
  num : Int
  scale : Nat
  deriving DecidableEq

/-- The rational value of a decimal. -/
def Dec.toRat (d : Dec) : Rat :=
  (d.num : Rat) / (10 : Rat) ^ d.scale

/-- Dynamically typed Python/JSON value, as produced by `json.loads` and
stored in the `product_data` dictionary of `scraper.py`. `pint`/`pfloat`
mirror Python's separate `int` and `float` types (JSON integer literals
parse to `int`). Floats are modelled as exact rationals. -/
inductive PyVal where
  | pstr (s : String)
  | pint (n : Int)
  | pfloat (d : Dec)
  | pbool (b : Bool)
  | plist (xs : List PyVal)
  | pdict (xs : List (String × PyVal))
  | pnone

/-- Python truthiness (`if v:`) for the values the scraper manipulates. -/
def PyVal.truthy : PyVal → Bool
  | .pstr s => s ≠ ""
  | .pint n => n ≠ 0
  | .pfloat d => d.num ≠ 0
  | .pbool b => b
  | .plist xs => ¬xs.isEmpty
  | .pdict xs => ¬xs.isEmpty
  | .pnone => false

/-- A Python dict with string keys (`product_data`, metadata, JSON objects),
in insertion order. -/
abbrev PyDict : Type := List (String × PyVal)

/-- `d.get(k)` / `d[k]` lookup (first binding wins; our `dictSet` keeps keys
unique, matching Python dict semantics). -/
def dictGet (d : PyDict) (k : String) : Option PyVal :=
  List.lookup k d

/-- `d.get(k, default)`. -/
def dictGetD (d : PyDict) (k : String) (v : PyVal) : PyVal :=
  (dictGet d k).getD v

/-- `d[k] = v`: update in place if the key exists (Python dicts keep the
original insertion position), else append. -/
def dictSet (d : PyDict) (k : String) (v : PyVal) : PyDict :=
  if (List.lookup k d).isSome then
    d.map (fun p => if p.1 = k then (k, v) else p)
  else
    d ++ [(k, v)]

/-- Truthiness of `d.get(k)` (`if product_data.get('image_url'):`). -/
def dictGetTruthy (d : PyDict) (k : String) : Bool :=
  match dictGet d k with
  | some v => v.truthy
  | none => false

/-- Numeric value of a digit list (most significant first). -/
def digitsVal (cs : List Char) : Nat :=
  cs.foldl (fun a c => a * 10 + (c.toNat - 48)) 0

/-- Whitespace recognised by Python's `str.strip`/`str.split` and regex
`\\s` (ASCII; the scraped inputs contain no exotic whitespace). -/
def isPyWs (c : Char) : Bool :=
  c == ' ' || c == '\t' || c == '\n' || c == '\r' || c == '\x0b' || c == '\x0c'

/-- Does `pat` occur at the head of `cs`? -/
def listStartsWith : List Char → List Char → Bool
  | _, [] => true
  | [], _ :: _ => false
  | c :: cs, p :: ps => c == p && listStartsWith cs ps

/-- Python `s.startswith(p)`. -/
def strStartsWith (s p : String) : Bool :=
  listStartsWith s.toList p.toList

/-- Does `pat` occur anywhere in `cs`? -/
def listHasSub : List Char → List Char → Bool
  | [], pat => pat.isEmpty
  | c :: rest, pat => listStartsWith (c :: rest) pat || listHasSub rest pat

/-- The characters of `cs` before the first occurrence of `pat`. -/
def takeUntilSub : List Char → List Char → List Char
  | [], _ => []
  | c :: rest, pat =>
    if listStartsWith (c :: rest) pat then [] else c :: takeUntilSub rest pat

/-- The characters of `cs` after the first occurrence of `pat`, if any. -/
def dropThroughSub : List Char → List Char → Option (List Char)
  | [], pat => if pat.isEmpty then some [] else none
  | c :: rest, pat =>
    if listStartsWith (c :: rest) pat then some ((c :: rest).drop pat.length)
    else dropThroughSub rest pat

/-- Python `s.strip()` on characters. -/
def charTrim (cs : List Char) : List Char :=
  ((cs.dropWhile isPyWs).reverse.dropWhile isPyWs).reverse

/-- Python `s.strip()`. -/
def strTrim (s : String) : String :=
  String.mk (charTrim s.toList)

/-- Python `s.lower()` (ASCII). -/
def strLower (s : String) : String :=
  String.mk (s.toList.map Char.toLower)

/-- Python `s.replace(pat, rep)` for nonempty `pat`; the fuel argument
keeps the recursion structural. -/
def replaceSubGo : Nat → List Char → List Char → List Char → List Char
  | 0, cs, _, _ => cs
  | fuel + 1, cs, pat, rep =>
    match cs with
    | [] => []
    | c :: rest =>
      if listStartsWith (c :: rest) pat then
        rep ++ replaceSubGo fuel ((c :: rest).drop pat.length) pat rep
      else c :: replaceSubGo fuel rest pat rep

/-- Python `s.replace(pat, rep)`. -/
def strReplace (s pat rep : String) : String :=
  String.mk (replaceSubGo s.toList.length s.toList pat.toList rep.toList)

/-- Python `s.split()`: maximal runs of non-whitespace characters. -/
def wordsOfGo : Nat → List Char → List (List Char)
  | 0, _ => []
  | fuel + 1, cs =>
    match cs with
    | [] => []
    | c :: rest =>
      if isPyWs c then wordsOfGo fuel rest
      else ((c :: rest).takeWhile (fun d => !isPyWs d)) ::
        wordsOfGo fuel ((c :: rest).dropWhile (fun d => !isPyWs d))

/-- Python `s.split()`. -/
def pyWords (s : String) : List String :=
  (wordsOfGo s.toList.length s.toList).map String.mk

/-- Python's `float(string)`: optional sign, then digits with at most one
decimal point (exponents and inf/nan are not produced by the scraped inputs
and are not modelled). `none` is a `ValueError`. -/
def parseFloatStr (s : String) : Option Dec :=
  let t := charTrim s.toList
  let sign : Int := if t.headD ' ' = '-' then -1 else 1
  let t := match t with
    | '-' :: r => r
    | '+' :: r => r
    | _ => t
  let ip := t.takeWhile Char.isDigit
  let rest := t.drop ip.length
  match rest with
  | [] => if ip.isEmpty then none else some ⟨sign * (digitsVal ip : Int), 0⟩
  | '.' :: fr =>
    let fp := fr.takeWhile Char.isDigit
    if fr.length ≠ fp.length then none
    else if ip.isEmpty ∧ fp.isEmpty then none
    else some ⟨sign * ((digitsVal ip : Int) * 10 ^ fp.length + (digitsVal fp : Int)),
      fp.length⟩
  | _ => none

/-- Python's `float(v)` on a dynamic value; `none` is a
`TypeError`/`ValueError` (e.g. `float(None)`, `float([])`). -/
def pyFloat : PyVal → Option Dec
  | .pint n => some ⟨n, 0⟩
  | .pfloat d => some d
  | .pbool b => some ⟨if b then 1 else 0, 0⟩
  | .pstr s => parseFloatStr s
  | _ => none

/-- Rendering of a decimal value as Python renders the floats the scraper
produces (sign, integer part, fractional part with trailing zeros
trimmed, at least one fractional digit). -/
def decToStr (d : Dec) : String :=
  let sgn := if d.num < 0 then "-" else ""
  let n := d.num.natAbs
  let ip := n / 10 ^ d.scale
  let fp := n % 10 ^ d.scale
  let fpStr := toString fp
  let fpStr := String.mk (List.replicate (d.scale - fpStr.length) '0') ++ fpStr
  let fpStr := String.mk ((fpStr.toList.reverse.dropWhile (· = '0')).reverse)
  let fpStr := if fpStr = "" then "0" else fpStr
  sgn ++ toString ip ++ "." ++ fpStr

/-- Python's `str(v)` for the values the scraper stringifies (size values,
embedding components). Containers get a simplified rendering. -/
def pyStr : PyVal → String
  | .pstr s => s
  | .pint n => toString n
  | .pfloat d => decToStr d
  | .pbool b => if b then "True" else "False"
  | .pnone => "None"
  | .plist _ => "[...]"
  | .pdict _ => "\x7b...\x7d"

/-- Substring test (`needle in haystack` on Python strings). -/
def strContains (s pat : String) : Bool :=
  listHasSub s.toList pat.toList

/-- `s.split(sep)[0]`: everything before the first occurrence of `sep`. -/
def stripAfter (sep s : String) : String :=
  String.mk (takeUntilSub s.toList sep.toList)

/-- Python's `a or b` on optional strings (`None` and `""` are falsy). -/
def pyOrS : Option String → Option String → Option String
  | some s, b => if s ≠ "" then some s else b
  | none, b => b

/-- `a or b` on plain strings. -/
def pyOrStr (a b : String) : String :=
  if a ≠ "" then a else b

/-- Model of `urllib.parse.urljoin` for the URL shapes the scraper feeds it:
absolute references are kept, network-path (`//…`) references take the
base scheme, root-relative paths take the base origin, the empty reference
yields the base, and other relative paths replace the base's last path
segment. Dot-segment normalisation is not modelled (no scraped input
contains dot segments). -/
def urljoin (base rel : String) : String :=
  if rel = "" then base
  else if strContains rel "://" then rel
  else if strStartsWith rel "//" then stripAfter "//" base ++ rel
  else
    match dropThroughSub base.toList "://".toList with
    | some rest =>
      let sch := String.mk (takeUntilSub base.toList "://".toList)
      let host := rest.takeWhile (· ≠ '/')
      let origin := sch ++ "://" ++ String.mk host
      let path := rest.drop host.length
      let path := takeUntilSub (takeUntilSub path "?".toList) "#".toList
      if strStartsWith rel "/" then origin ++ rel
      else
        let dir := (path.reverse.dropWhile (· ≠ '/')).reverse
        let dir := if dir.isEmpty then ['/'] else dir
        origin ++ String.mk dir ++ rel
    | none => rel

/-- One parsed markup element (a BeautifulSoup `Tag`): its tag name, its
attribute dict, and its `get_text(strip=True)` text. -/
structure Elem where
  name : String := ""
  attrs : List (String × String) := []
  text : String := ""
  deriving DecidableEq

/-- `elem.get(attr)`: `None` when the attribute is absent. -/
def Elem.attr (e : Elem) (k : String) : Option String :=
  List.lookup k e.attrs

/-- `elem.get(attr, default)`. -/
def Elem.attrD (e : Elem) (k d : String) : String :=
  (e.attr k).getD d

def BASE_URL : String := "https://www.stories.com"

def CATEGORY_URL : String := "https://www.stories.com/en-eu/clothing/"

/-- A parsed page: the outcome of exactly the BeautifulSoup queries that
`scraper.py` performs. Fields default to "not found". -/
structure Soup where
  /-- Outcome of `json.loads` for each `script[type="application/ld+json"]`
  element, in document order; `none` is a parse error (swallowed). -/
  ldJsonScripts : List (Option PyVal) := []
  /-- Result of `select_one('meta[property="og:title"]')`. -/
  metaOgTitle : Option Elem := none
  /-- Result of `find('title')`. -/
  titleElem : Option Elem := none
  /-- Result of `select_one('meta[property="product:price:amount"]')`. -/
  metaPriceAmount : Option Elem := none
  /-- Result of `select_one('meta[property="product:price:currency"]')`. -/
  metaPriceCurrency : Option Elem := none
  /-- Result of `select_one('meta[property="og:image"]')`. -/
  metaOgImage : Option Elem := none
  /-- Result of `select_one('meta[name="twitter:image"]')`. -/
  metaTwitterImage : Option Elem := none
  /-- Result of `select_one('meta[itemprop="image"]')`. -/
  metaItempropImage : Option Elem := none
  /-- Result of `select_one('link[rel="image_src"]')`. -/
  linkImageSrc : Option Elem := none
  /-- Result of `select_one('meta[property="og:description"]')`. -/
  metaOgDescription : Option Elem := none
  /-- Result of `select_one('img[src*="media.stories.com"]')`. -/
  imgMediaSrc : Option Elem := none
  /-- Result of `select_one('img[data-src*="media.stories.com"]')`. -/
  imgMediaDataSrc : Option Elem := none
  /-- Result of `select_one('img[data-lazy-src*="media.stories.com"]')`. -/
  imgMediaDataLazySrc : Option Elem := none
  /-- Result of `select_one('.product-image img')`. -/
  imgProductImage : Option Elem := none
  /-- Result of `select_one('.product-gallery img')`. -/
  imgProductGallery : Option Elem := none
  /-- Result of `select_one('[data-product-image] img')`. -/
  imgDataProductImage : Option Elem := none
  /-- Result of `select_one('[class*="product"] img[src*="media"]')`. -/
  imgClassProductMedia : Option Elem := none
  /-- Result of `select_one('picture img')`. -/
  imgPicture : Option Elem := none
  /-- Result of `select_one('source[srcset*="media.stories.com"]')`. -/
  sourceSrcset : Option Elem := none
  /-- Result of `find_all('img')`. -/
  allImgs : List Elem := []
  /-- Result of `select('[data-size]')`. -/
  sizeDataSize : List Elem := []
  /-- Result of `select('.size-selector button')`. -/
  sizeSelectorButtons : List Elem := []
  /-- Result of `select('.product-size option')`. -/
  sizeProductOptions : List Elem := []
  /-- Result of `select('button[aria-label*="size"]')`. -/
  sizeAriaButtons : List Elem := []
  /-- Result of `select('a[href*="/product/"]')` on listing pages. -/
  anchorsProduct : List Elem := []
  /-- Result of `select('a[href*="/en-eu/product/"]')` on listing pages. -/
  anchorsEnEuProduct : List Elem := []
  /-- Result of `select('.product-link')` on listing pages. -/
  productLinkEls : List Elem := []
  /-- Result of `select('[data-product-url]')` on listing pages. -/
  dataProductUrlEls : List Elem := []

/-- Helper for `re.search(r'/product/[^/]+-(\d+)/', url)`: given the
non-slash segment following `/product/` (known to be slash-terminated),
the captured digit group. Greedy `[^/]+` with backtracking means the
match, if any, captures the maximal all-digit suffix of the segment,
provided it is nonempty, preceded by a dash, with at least one character
before the dash. -/
def segMatch (seg : List Char) : Option String :=
  let d := (seg.reverse.takeWhile Char.isDigit).reverse
  if d.isEmpty then none
  else
    match (seg.take (seg.length - d.length)).reverse with
    | '-' :: a => if a.isEmpty then none else some (String.mk d)
    | _ => none

/-- Model of `re.search(r'/product/[^/]+-(\d+)/', product_url)`
(scraper.py line 411): the captured digit group of the leftmost match. -/
def extractProductId (url : String) : Option String :=
  let cs := url.toList
  (List.range cs.length).findSome? (fun i =>
    if (cs.drop i).take 9 = "/product/".toList then
      let rest := cs.drop (i + 9)
      let seg := rest.takeWhile (· ≠ '/')
      if seg.length < rest.length then segMatch seg else none
    else none)

/-- Deterministic stand-in for Python's `hash(str)` (scraper.py line 416),
which is salted per process and implementation-defined. No claim depends
on the value, only on the fact that some id string is always produced. -/
def pyHashModel (s : String) : Nat :=
  s.foldl (fun h c => (h * 31 + c.toNat) % (2 ^ 61 - 1)) 7

/-- Product id resolution (scraper.py lines 409-416): numeric URL suffix if
the pattern matches, else the hash-derived fallback id. Always succeeds. -/
def resolvedId (url : String) : String :=
  match extractProductId url with
  | some g => "otherstories_" ++ g
  | none => "otherstories_" ++ toString (pyHashModel url % 10 ^ 10)

/-- First parseable ld+json script whose value is a dict with
`@type == 'Product'` (scraper.py lines 419-428). -/
def findProductLd (scripts : List (Option PyVal)) : Option PyDict :=
  scripts.findSome? (fun s =>
    match s with
    | some (.pdict d) =>
      match List.lookup "@type" d with
      | some (.pstr t) => if t = "Product" then some d else none
      | _ => none
    | _ => none)

/-- Model of `BeautifulSoup(html, 'html.parser').get_text(separator=' ',
strip=True)` on flat description markup (scraper.py lines 456-457): tag
regions are replaced by separators and whitespace is normalised. -/
def stripTags (s : String) : String :=
  let txt := (s.toList.foldl (fun (st : Bool × List Char) c =>
    if st.1 then
      if c = '>' then (false, ' ' :: st.2) else (true, st.2)
    else
      if c = '<' then (true, st.2) else (false, c :: st.2)) (false, [])).2.reverse
  String.intercalate " " ((wordsOfGo txt.length txt).map String.mk)

/-- One offer dict: `product_data['price'] = float(offer.get('price', 0))`
and `product_data['currency'] = offer.get('priceCurrency', 'EUR')`
(scraper.py lines 439-443). -/
def offerPriceStage (pd : PyDict) (od : PyDict) : Option PyDict :=
  (pyFloat (dictGetD od "price" (.pint 0))).map (fun p =>
    dictSet (dictSet pd "price" (.pfloat p)) "currency"
      (dictGetD od "priceCurrency" (.pstr "EUR")))

/-- The `offers` dispatch of the JSON-LD branch (scraper.py lines 436-443):
a nonempty list takes its first offer, a dict is used directly, anything
else leaves price/currency unset. A non-dict first offer raises
(`offer.get` on a non-dict). -/
def offersStage (pd : PyDict) (offers : PyVal) : Option PyDict :=
  match offers with
  | .plist (.pdict od :: _) => offerPriceStage pd od
  | .plist (_ :: _) => none
  | .pdict od => offerPriceStage pd od
  | _ => some pd

/-- The `image` field of the JSON-LD branch (scraper.py lines 446-450). -/
def jldImageStage (pd : PyDict) (images : PyVal) : PyDict :=
  match images with
  | .plist (i :: _) => dictSet pd "image_url" i
  | .pstr s => dictSet pd "image_url" (.pstr s)
  | _ => pd

/-- The `description` field of the JSON-LD branch (scraper.py lines
452-457): truthy descriptions are HTML-stripped; a truthy non-string
raises inside `BeautifulSoup`. -/
def jldDescriptionStage (pd : PyDict) (desc : PyVal) : Option PyDict :=
  if desc.truthy then
    match desc with
    | .pstr s => some (dictSet pd "description" (.pstr (stripTags s)))
    | _ => none
  else some pd

/-- The `category` field of the JSON-LD branch (scraper.py lines 459-469). -/
def jldCategoryStage (pd : PyDict) (cat : PyVal) : Option PyDict :=
  match cat with
  | .pdict cd =>
    let cn := dictGetD cd "name" (.pstr "")
    if cn.truthy then
      match cn with
      | .pstr s => some (dictSet pd "category" (.pstr (strTrim (stripAfter ">" s))))
      | _ => none
    else some (dictSet pd "category" (.pstr "Clothing"))
  | _ => some (dictSet pd "category" (.pstr "Clothing"))

/-- The `brand` field of the JSON-LD branch (scraper.py lines 471-476);
note `.replace('&', 'Other Stories')` rewrites every ampersand. -/
def jldBrandStage (pd : PyDict) (brand : PyVal) : Option PyDict :=
  match brand with
  | .pdict bd =>
    let bn := dictGetD bd "name" (.pstr "")
    if bn.truthy then
      match bn with
      | .pstr s => some (dictSet pd "brand" (.pstr (strTrim (strReplace s "&" "Other Stories"))))
      | _ => none
    else some pd
  | _ => some pd

/-- JSON-LD extraction branch (scraper.py lines 431-479), updating
`product_data`; the returned `PyVal` is the local variable `sku`. A `none`
result is an exception escaping to the outer handler. -/
def jldStage (pd : PyDict) (d : PyDict) : Option (PyDict × PyVal) :=
  let pd := dictSet pd "title" (dictGetD d "name" (.pstr "Unknown Product"))
  (offersStage pd (dictGetD d "offers" (.plist []))).bind (fun pd =>
  (jldDescriptionStage (jldImageStage pd (dictGetD d "image" (.plist [])))
      (dictGetD d "description" (.pstr ""))).bind (fun pd =>
  (jldCategoryStage pd (dictGetD d "category" (.pdict []))).bind (fun pd =>
  (jldBrandStage pd (dictGetD d "brand" (.pdict []))).map (fun pd =>
  (pd, dictGetD d "sku" (.pstr ""))))))

/-- Candidate meta/link elements for the image fallback, in selector order
(scraper.py lines 483-489); absent elements are skipped. -/
def metaImgCandidates (soup : Soup) : List Elem :=
  [soup.metaOgImage, soup.metaTwitterImage, soup.metaItempropImage,
   soup.linkImageSrc].filterMap id

/-- Per-element body of the meta-image loop (scraper.py lines 490-496):
`content` or `href`, accepted when truthy and either containing
`media.stories.com` or starting with `http`. -/
def imgUrlOfMeta (e : Elem) : Option String :=
  match pyOrS (e.attr "content") (e.attr "href") with
  | some u =>
    if u != "" && (strContains u "media.stories.com" || strStartsWith u "http")
    then some u else none
  | none => none

/-- Candidate img/source elements for the second image tier, in selector
order (scraper.py lines 500-510). -/
def imgSelCandidates (soup : Soup) : List Elem :=
  [soup.imgMediaSrc, soup.imgMediaDataSrc, soup.imgMediaDataLazySrc,
   soup.imgProductImage, soup.imgProductGallery, soup.imgDataProductImage,
   soup.imgClassProductMedia, soup.imgPicture, soup.sourceSrcset].filterMap id

/-- `srcset.split(',')[0].strip().split(' ')[0]` (scraper.py line 517). -/
def srcsetFirst (s : String) : String :=
  stripAfter " " (strTrim (stripAfter "," s))

/-- The img-element URL expression (scraper.py lines 514-517). Python's
conditional-expression precedence makes the whole `or`-chain the if-true
arm, so the result is `None` whenever the element has no truthy `srcset`
attribute, even if it has a `src`. -/
def imgUrlOfImgElem (e : Elem) : Option String :=
  match e.attr "srcset" with
  | some ss =>
    if ss != "" then
      pyOrS (e.attr "src") (pyOrS (e.attr "data-src")
        (pyOrS (e.attr "data-lazy-src") (some (srcsetFirst ss))))
    else none
  | none => none

/-- The second image-fallback tier (scraper.py lines 499-520). -/
def imgFromImgSelectors (soup : Soup) : Option String :=
  (imgSelCandidates soup).findSome? (fun e =>
    match imgUrlOfImgElem e with
    | some u => if u != "" && strContains u "media.stories.com" then some u else none
    | none => none)

/-- The last-resort image scan over every img element (lines 522-532). -/
def imgLastResort (soup : Soup) : Option String :=
  soup.allImgs.findSome? (fun img =>
    ["src", "data-src", "data-lazy-src"].findSome? (fun a =>
      let u := img.attrD a ""
      if u != "" && strContains u "media.stories.com" then some u else none))

/-- The whole image-fallback branch (scraper.py lines 482-532), executed
when `product_data.get('image_url')` is falsy. -/
def fallbackImage (soup : Soup) : Option String :=
  match (metaImgCandidates soup).findSome? imgUrlOfMeta with
  | some u => some u
  | none =>
    match imgFromImgSelectors soup with
    | some u => some u
    | none => imgLastResort soup

/-- The misattached markup-fallback branch (scraper.py lines 534-575).
Because its `else` belongs to `if not product_data.get('image_url')` at
line 482 rather than to the JSON-LD availability check (its comment says
"if JSON-LD not available"), it runs exactly when an image URL was already
found, re-extracting title, price, currency, image, description and
category from meta tags over the JSON-LD values. -/
def metaFallbackStage (soup : Soup) (pd : PyDict) : PyDict :=
  let titleElem := match soup.metaOgTitle with
    | some e => some e
    | none => soup.titleElem
  let t : Option String := match titleElem with
    | some e => if e.name = "meta" then e.attr "content" else some e.text
    | none => none
  let pd := dictSet pd "title" (.pstr (match t with
    | some s => pyOrStr s "Unknown Product"
    | none => "Unknown Product"))
  let pd := match soup.metaPriceAmount with
    | some e =>
      (match (match e.attr "content" with
              | some s => parseFloatStr s
              | none => some ⟨0, 0⟩) with
       | some p =>
         dictSet (dictSet pd "price" (.pfloat p)) "currency"
           (.pstr (match soup.metaPriceCurrency with
             | some ce => ce.attrD "content" "EUR"
             | none => "EUR"))
       | none => dictSet (dictSet pd "price" .pnone) "currency" (.pstr "EUR"))
    | none => dictSet (dictSet pd "price" .pnone) "currency" (.pstr "EUR")
  let pd := match soup.metaOgImage with
    | some e => dictSet pd "image_url" (.pstr (e.attrD "content" ""))
    | none =>
      match soup.imgMediaSrc with
      | some ie =>
        dictSet pd "image_url" (.pstr (pyOrStr (ie.attrD "src" "") (ie.attrD "data-src" "")))
      | none => pd
  let pd := match soup.metaOgDescription with
    | some e => dictSet pd "description" (.pstr (e.attrD "content" ""))
    | none => dictSet pd "description" .pnone
  dictSet pd "category" (.pstr "Clothing")

/-- Image-URL absolutisation (scraper.py lines 583-591). A missing
`image_url` key raises `KeyError` on `product_data['image_url']`, and a
non-string value raises in `.startswith`; both escape to the outer
handler, so `none` here makes `scrape_product` return `None`. -/
def normalizeImageStage (pd : PyDict) (productUrl : String) : Option PyDict :=
  match dictGet pd "image_url" with
  | none => none
  | some v =>
    match v with
    | .pstr u =>
      let u := if strStartsWith u "//" then "https:" ++ u
        else if strStartsWith u "/" then urljoin BASE_URL u
        else if !strStartsWith u "http" then urljoin productUrl u
        else u
      some (dictSet pd "image_url" (.pstr u))
    | _ => none

/-- Scan of list-shaped JSON-LD offers for `size` fields (scraper.py lines
597-603); a non-dict entry raises (`offer.get` on a non-dict). -/
def jldSizesList : List PyVal → List String → Option (List String)
  | [], acc => some acc
  | .pdict od :: os, acc =>
    jldSizesList os (if (List.lookup "size" od).isSome then
      acc ++ [pyStr (dictGetD od "size" .pnone)] else acc)
  | _ :: _, _ => none

/-- One size element's candidate text (scraper.py line 616). -/
def sizeTextOf (e : Elem) : String :=
  pyOrStr e.text (pyOrStr (e.attrD "data-size" "") (e.attrD "aria-label" ""))

/-- The size-selector groups, in order (scraper.py lines 607-612). -/
def sizeSelGroups (soup : Soup) : List (List Elem) :=
  [soup.sizeDataSize, soup.sizeSelectorButtons, soup.sizeProductOptions,
   soup.sizeAriaButtons]

/-- HTML size fallback (scraper.py lines 606-620): selector groups are
tried in order, placeholder texts and duplicates are skipped, and the
first group contributing any size wins. -/
def htmlSizes (soup : Soup) : List String :=
  (sizeSelGroups soup).foldl (fun acc elems =>
    if acc.isEmpty then
      elems.foldl (fun acc e =>
        let st := sizeTextOf e
        if st != "" && strLower st != "select size" && strLower st != "size"
            && !(acc.contains st)
        then acc ++ [st] else acc) acc
    else acc) []

/-- Size extraction (scraper.py lines 593-620): JSON-LD offers first, HTML
selectors only when that yields nothing. -/
def productSizes (jld : Option PyDict) (soup : Soup) : Option (List String) :=
  (match jld with
   | some d =>
     if (List.lookup "offers" d).isSome then
       match List.lookup "offers" d with
       | some (.plist os) => jldSizesList os []
       | _ => some []
     else some []
   | none => some []).map (fun (sizes : List String) =>
    if sizes.isEmpty then htmlSizes soup else sizes)

/-- Metadata construction (scraper.py lines 624-645); `sku` is the local
variable from the extraction branches (`none` when never assigned). -/
def buildMetadata (jld : Option PyDict) (sku : Option PyVal) (productUrl now : String)
    (sizes : List String) : PyDict :=
  let md : PyDict := [("scraped_at", .pstr now), ("url", .pstr productUrl),
    ("sizes_available", .plist (sizes.map .pstr))]
  match jld with
  | some d =>
    let md := match sku with
      | some sk => if sk.truthy then md ++ [("sku", sk)] else md
      | none => md
    let md := match List.lookup "color" d with
      | some c => md ++ [("color", c)]
      | none => md
    let md := match List.lookup "aggregateRating" d with
      | some (.pdict rd) =>
        md ++ [("rating", dictGetD rd "ratingValue" .pnone),
               ("review_count", dictGetD rd "reviewCount" .pnone)]
      | _ => md
    match List.lookup "itemCondition" d with
    | some v => md ++ [("condition", v)]
    | none => md
  | none => md

/-- The initial `product_data` dict (scraper.py lines 401-407). -/
def initialProductData (productUrl : String) : PyDict :=
  [("source", .pstr "scraper"), ("brand", .pstr "Other Stories"),
   ("product_url", .pstr productUrl), ("second_hand", .pbool false),
   ("gender", .pstr "WOMAN")]

/-- The branch choice at scraper.py line 482/534: image fallback when the
image is still falsy, else the misattached meta fallback (which also
resets the local `sku` to `None`, line 575). -/
def imageOrMetaBranch (soup : Soup) (pd : PyDict) (sku : Option PyVal) :
    PyDict × Option PyVal :=
  if dictGetTruthy pd "image_url" then (metaFallbackStage soup pd, some .pnone)
  else
    ((match fallbackImage soup with
      | some u => dictSet pd "image_url" (.pstr u)
      | none => pd), sku)

/-- Body of `scrape_product` after a successful fetch (scraper.py lines
400-653); `none` is the outer `except` path returning `None`. `now`
stands for `datetime.now().isoformat()`. -/
def scrapeProductBody (soup : Soup) (productUrl now : String) : Option PyDict :=
  let pd := dictSet (initialProductData productUrl) "id" (.pstr (resolvedId productUrl))
  let jld := findProductLd soup.ldJsonScripts
  (match jld with
   | some d => (jldStage pd d).map (fun (r : PyDict × PyVal) => (r.1, some r.2))
   | none => some (pd, (none : Option PyVal))).bind (fun st =>
  let branch := imageOrMetaBranch soup st.1 st.2
  (normalizeImageStage branch.1 productUrl).bind (fun pd =>
  (productSizes jld soup).map (fun (sizes : List String) =>
  let pd := dictSet pd "size"
    (if sizes.isEmpty then .pnone else .pstr (String.intercalate ", " sizes))
  dictSet pd "metadata" (.pdict (buildMetadata jld branch.2 productUrl now sizes)))))

/-- `scrape_product` (scraper.py lines 386-653): `none` when the page
fetch failed or any exception occurred during extraction. -/
def scrapeProduct (soup : Option Soup) (productUrl now : String) : Option PyDict :=
  match soup with
  | none => none
  | some s => scrapeProductBody s productUrl now

/-- The anchor selector groups of `get_products_from_category_page`, in
order (scraper.py lines 295-300). -/
def anchorGroups (soup : Soup) : List (List Elem) :=
  [soup.anchorsProduct, soup.anchorsEnEuProduct, soup.productLinkEls,
   soup.dataProductUrlEls]

/-- Normalisation applied to anchor hrefs (scraper.py lines 308-317):
absolutise, then strip fragment and query. -/
def normalizeHref (pageUrl href : String) : String :=
  let full := if strStartsWith href "/" then urljoin BASE_URL href
    else if strStartsWith href "http" then href
    else urljoin pageUrl href
  stripAfter "?" (stripAfter "#" full)

/-- The anchor-element URL extraction of `get_products_from_category_page`
(scraper.py lines 302-321): the first selector with any matches is
processed (then the loop breaks), keeping hrefs containing `/product/`,
normalised, deduplicated within the page. -/
def anchorUrls (pageUrl : String) (soup : Soup) : List String :=
  match (anchorGroups soup).find? (fun g => !g.isEmpty) with
  | some links =>
    links.foldl (fun acc link =>
      let href := link.attrD "href" ""
      if strContains href "/product/" then
        let full := normalizeHref pageUrl href
        if acc.contains full then acc else acc ++ [full]
      else acc) []
  | none => []

/-- One parsed ld+json script of a listing page (scraper.py lines 326-337):
dict payloads contribute their `url` when it contains `/product/`; list
payloads are scanned item by item. URLs are appended verbatim, with no
normalisation. Non-string `url` values (which would raise or take
container-membership semantics in Python, aborting the script's scan) are
modelled as ending the scan with the appends made so far kept, matching
the `except: pass` around the loop body. -/
def ldListingScan : List PyVal → List String → List String
  | [], acc => acc
  | item :: items, acc =>
    match item with
    | .pdict d =>
      (match List.lookup "url" d with
       | some (.pstr u) =>
         ldListingScan items (if strContains u "/product/" then acc ++ [u] else acc)
       | some _ => acc
       | none => ldListingScan items acc)
    | _ => ldListingScan items acc

/-- The JSON-LD URL extraction of `get_products_from_category_page`
(scraper.py lines 323-339), run after (and merged with) the anchor
extraction. -/
def ldListingUrls (scripts : List (Option PyVal)) : List String :=
  scripts.foldl (fun acc s =>
    match s with
    | some (.pdict d) =>
      (match List.lookup "url" d with
       | some (.pstr u) => if strContains u "/product/" then acc ++ [u] else acc
       | _ => acc)
    | some (.plist items) => ldListingScan items acc
    | _ => acc) []

/-- Listing page URL construction (scraper.py lines 281-285). -/
def buildPageUrl (categoryUrl : String) (page : Nat) : String :=
  if page > 1 then categoryUrl ++ "?page=" ++ toString page else categoryUrl

/-- `get_products_from_category_page` (scraper.py lines 270-342): anchor
URLs (normalised, page-deduplicated) followed by JSON-LD URLs (verbatim).
`fetch` models `get_page`; a failed fetch yields no URLs. -/
def getProductsFromCategoryPage (fetch : String → Option Soup)
    (categoryUrl : String) (page : Nat) : List String :=
  let url := buildPageUrl categoryUrl page
  match fetch url with
  | none => []
  | some soup => anchorUrls url soup ++ ldListingUrls soup.ldJsonScripts

/-- Python truthiness of the optional `limit` argument (`if limit and …`). -/
def limitTruthy : Option Nat → Bool
  | some n => n ≠ 0
  | none => false

/-- The pre-deduplication stop check `if limit and len(all_urls) >= limit`
(scraper.py line 365), applied to the raw accumulated list. -/
def limitReached (limit : Option Nat) (acc : List String) : Bool :=
  limitTruthy limit && limit.getD 0 ≤ acc.length

/-- The pagination loop of `get_all_product_urls` (scraper.py lines
357-368), accumulating the raw (duplicate-inflated) URL list. The returned
flag records whether the loop stopped because `len(all_urls) >= limit`
(the pre-deduplication limit check at line 365). The fuel argument is the
fixed `max_pages = 20` page budget. -/
def gatherPages (fetch : String → Option Soup) (limit : Option Nat) :
    Nat → Nat → List String → List String × Bool
  | 0, _, acc => (acc, false)
  | n + 1, page, acc =>
    let pageUrls := getProductsFromCategoryPage fetch CATEGORY_URL page
    if pageUrls.isEmpty then (acc, false)
    else
      let acc := acc ++ pageUrls
      if limitReached limit acc then (acc, true)
      else gatherPages fetch limit n (page + 1) acc

/-- The raw URL accumulation of a full `get_all_product_urls` run. -/
def rawGathered (fetch : String → Option Soup) (limit : Option Nat) : List String :=
  (gatherPages fetch limit 20 1 []).1

/-- Whether the pagination loop stopped at the limit check. -/
def stoppedAtLimit (fetch : String → Option Soup) (limit : Option Nat) : Bool :=
  (gatherPages fetch limit 20 1 []).2

/-- The order-preserving deduplication of `get_all_product_urls` (scraper.py
lines 370-376). The Python code keeps a separate `seen` set whose contents
always equal the accumulated unique list, so the membership test is
modelled directly on the accumulator. -/
def insNew (acc : List String) (url : String) : List String :=
  if acc.contains url then acc else acc ++ [url]

/-- The fold over `insNew` (one loop iteration of lines 373-376). -/
def firstSeenDedup (l : List String) : List String :=
  l.foldl insNew []

/-- `get_all_product_urls` (scraper.py lines 344-384): gather pages (with
the pre-dedup limit stop), deduplicate preserving first-seen order, then
truncate to the limit. -/
def getAllProductUrls (fetch : String → Option Soup) (limit : Option Nat) : List String :=
  let unique := firstSeenDedup (rawGathered fetch limit)
  if limitTruthy limit && limit.getD 0 < unique.length then unique.take (limit.getD 0)
  else unique

/-- Outcome of one Supabase HTTP delete call: a status code, or a raised
exception (network error etc.). -/
inductive HttpRes where
  | status (n : Nat)
  | exn

/-- A delete request issued during reconciliation: a bulk `id=in.(…)`
delete for a chunk, or a single `id=eq.…` delete. Both carry the
`source=eq.scraper` partition filter in the code. -/
inductive DelEv where
  | bulkDelete (ids : List String)
  | singleDelete (id_ : String)

/-- Successful status codes accepted by the delete loop
(`del_resp.status_code in (200, 204)`). -/
def delOk (r : HttpRes) : Bool :=
  match r with
  | .status n => n = 200 || n = 204
  | .exn => false

/-- The ids the store reports for this source's partition (scraper.py line
834): rows with a falsy or missing id are dropped. -/
def existingIds (rows : List (Option String)) : List String :=
  rows.filterMap (fun r =>
    match r with
    | some s => if s ≠ "" then some s else none
    | none => none)

/-- `to_delete` (scraper.py line 838): persisted ids absent from the
current run's successful-id list. -/
def toDeleteIds (rows : List (Option String)) (currentIds : List String) : List String :=
  (existingIds rows).filter (fun e => !(currentIds.contains e))

/-- Fixed-size chunking with `chunk_size = 100` (scraper.py lines 847-851),
written with a fuel argument so that it reduces definitionally. -/
def chunks100Go : Nat → List String → List (List String)
  | 0, _ => []
  | _, [] => []
  | n + 1, l => l.take 100 :: chunks100Go n (l.drop 100)

/-- The chunks `to_delete[i:i+100]` of the delete loop. -/
def chunks100 (l : List String) : List (List String) :=
  chunks100Go l.length l

/-- One iteration of the chunked delete loop (scraper.py lines 850-880):
the bulk delete is attempted; a 200/204 status counts the whole chunk
deleted; any other status only logs a warning; a raised exception
triggers the per-id fallback, which attempts every id of the chunk and
counts the ones that return 200/204, swallowing per-id exceptions. -/
def processChunk (bulk : List String → HttpRes) (single : String → HttpRes)
    (chunk : List String) : List DelEv × Nat :=
  match bulk chunk with
  | .status n =>
    ([.bulkDelete chunk], if n = 200 || n = 204 then chunk.length else 0)
  | .exn =>
    (.bulkDelete chunk :: chunk.map .singleDelete,
     (chunk.filter (fun i => delOk (single i))).length)

/-- `delete_missing_products` (scraper.py lines 812-887) outside test mode,
with the store's behaviour passed in: `rows` is the partition query
response, `bulk`/`single` the outcomes of the delete requests. Returns the
issued delete requests and the final `deleted_count`. -/
def deleteMissingProducts (rows : List (Option String)) (currentIds : List String)
    (bulk : List String → HttpRes) (single : String → HttpRes) : List DelEv × Nat :=
  let td := toDeleteIds rows currentIds
  if td.isEmpty then ([], 0)
  else
    (chunks100 td).foldl (fun (st : List DelEv × Nat) chunk =>
      let r := processChunk bulk single chunk
      (st.1 ++ r.1, st.2 + r.2)) ([], 0)

/-- Every id named by a delete request. -/
def delEvIds (ev : DelEv) : List String :=
  match ev with
  | .bulkDelete ids => ids
  | .singleDelete i => [i]

/-- The set of ids the reconciler attempts to delete. -/
def attemptedIds (evs : List DelEv) : List String :=
  (evs.map delEvIds).flatten

/-- Outcome of the embedding computation for one image, up to the
dimensionality check: the model/network either fails (any exception path
of scraper.py lines 665-728) or yields a raw vector. -/
inductive EmbedOutcome where
  | fail
  | vec (v : List Dec)

/-- `generate_embedding` (scraper.py lines 655-740): the computed vector is
returned only when its length is exactly 768 (lines 730-735); otherwise
`None`. -/
def generateEmbedding (o : EmbedOutcome) : Option (List Dec) :=
  match o with
  | .fail => none
  | .vec v => if v.length = 768 then some v else none

/-- The embedding attachment in `run` (scraper.py lines 930-936):
`product_data['embedding'] = embedding` only when `generate_embedding`
returned a truthy (nonempty) list. -/
def attachEmbedding (pd : PyDict) (o : EmbedOutcome) : PyDict :=
  match generateEmbedding o with
  | some emb => if emb.isEmpty then pd else dictSet pd "embedding" (.plist (emb.map .pfloat))
  | none => pd

/-- `'[' + ','.join(map(str, embedding)) + ']'` (scraper.py line 781). -/
def formatEmbedding (xs : List PyVal) : String :=
  "[" ++ String.intercalate "," (xs.map pyStr) ++ "]"

/-- The underlying list of a Python list value (used only where the code
guarantees the shape). -/
def pyValList : PyVal → List PyVal
  | .plist xs => xs
  | _ => []

/-- The underlying entries of a Python dict value. -/
def pyValDict : PyVal → PyDict
  | .pdict xs => xs
  | _ => []

/-- Whether a value is Python's `None` (the `v is not None` filter). -/
def isPNone : PyVal → Bool
  | .pnone => true
  | _ => false

/-- A minimal `json.dumps` stand-in for the metadata serialisation
(scraper.py line 773); claims never inspect the rendered string. -/
def jsonDumpsMeta (d : PyDict) : String :=
  "\x7b" ++ String.intercalate "," (d.map (fun p => "\x22" ++ p.1 ++ "\x22:" ++ pyStr p.2)) ++ "\x7d"

/-- The `supabase_data` payload of `insert_product` (scraper.py lines
757-785): the fixed field list, the optional embedding added afterwards as
a formatted string, then removal of `None` values. `now` stands for the
`created_at` timestamp. -/
def supabasePayload (pd : PyDict) (now : String) : PyDict :=
  let base : PyDict := [
    ("id", dictGetD pd "id" .pnone),
    ("source", dictGetD pd "source" (.pstr "scraper")),
    ("product_url", dictGetD pd "product_url" .pnone),
    ("affiliate_url", dictGetD pd "affiliate_url" .pnone),
    ("image_url", dictGetD pd "image_url" .pnone),
    ("brand", dictGetD pd "brand" (.pstr "Other Stories")),
    ("title", dictGetD pd "title" .pnone),
    ("description", dictGetD pd "description" .pnone),
    ("category", dictGetD pd "category" .pnone),
    ("gender", dictGetD pd "gender" (.pstr "WOMAN")),
    ("price", dictGetD pd "price" .pnone),
    ("currency", dictGetD pd "currency" .pnone),
    ("size", dictGetD pd "size" .pnone),
    ("second_hand", dictGetD pd "second_hand" (.pbool false)),
    ("metadata", match dictGet pd "metadata" with
      | some m => if m.truthy then PyVal.pstr (jsonDumpsMeta (pyValDict m)) else PyVal.pnone
      | none => .pnone),
    ("created_at", .pstr now)]
  let base := match dictGet pd "embedding" with
    | some e =>
      if e.truthy then base ++ [("embedding", PyVal.pstr (formatEmbedding (pyValList e)))]
      else base
    | none => base
  base.filter (fun kv => !isPNone kv.2)

/-- Per-URL collaborator behaviour during `run`: the `scrape_product`
outcome, the embedding-computation outcome, and whether the upsert POST
succeeds. -/
structure UrlOutcome where
  record : Option PyDict := none
  embed : EmbedOutcome := .fail
  insertOk : Bool := true

/-- Store-visible events of a `run`: upsert POSTs, the invocation of the
reconciliation step, and its delete requests. -/
inductive RunEv where
  | upsert (id_ : Option PyVal)
  | reconcile
  | bulkDelete (ids : List String)
  | singleDelete (id_ : String)

/-- `if product_id: successful_product_ids.append(product_id)` (scraper.py
lines 941-946). Ids produced by `scrape_product` are always strings;
non-string values cannot arise and are not collected. -/
def appendIdIfTruthy (ids : List String) (pid : Option PyVal) : List String :=
  match pid with
  | some (.pstr s) => if s ≠ "" then ids ++ [s] else ids
  | _ => ids

/-- One iteration of the scraping loop of `run` (scraper.py lines
923-955), threading the successful-id list and the event list. -/
def runStep (testMode : Bool) (st : List String × List RunEv) (o : UrlOutcome) :
    List String × List RunEv :=
  match o.record with
  | none => st
  | some pd =>
    let pid := dictGet pd "id"
    let pd := if !testMode && dictGetTruthy pd "image_url" then attachEmbedding pd o.embed else pd
    if testMode then (appendIdIfTruthy st.1 pid, st.2)
    else
      let evs := st.2 ++ [.upsert pid]
      let _ := pd
      if o.insertOk then (appendIdIfTruthy st.1 pid, evs) else (st.1, evs)

/-- The scraping loop of `run` (scraper.py lines 919-955). -/
def runLoop (testMode : Bool) (outcomes : List UrlOutcome) : List String × List RunEv :=
  outcomes.foldl (runStep testMode) ([], [])

/-- Reconciliation delete requests as run events. -/
def delEvToRunEv : DelEv → RunEv
  | .bulkDelete ids => .bulkDelete ids
  | .singleDelete i => .singleDelete i

/-- `run` after URL discovery (scraper.py lines 919-963): the scraping
loop, then — only when not in test mode and the successful-id list is
nonempty (line 960) — the reconciliation step, marked by a `reconcile`
event followed by its delete requests. Returns the event trace and the
successful-id list. -/
def runTrace (testMode : Bool) (outcomes : List UrlOutcome)
    (rows : List (Option String)) (bulk : List String → HttpRes)
    (single : String → HttpRes) : List RunEv × List String :=
  let st := runLoop testMode outcomes
  if !testMode && !st.1.isEmpty then
    (st.2 ++ [.reconcile] ++ (deleteMissingProducts rows st.1 bulk single).1.map delEvToRunEv,
     st.1)
  else (st.2, st.1)

/-- `' '.join(price_text.split())` (product_scraper.py line 172). -/
def collapseWs (s : String) : String :=
  String.intercalate " " (pyWords s)

/-- The currency-symbol character class of the price regex
(product_scraper.py line 176). -/
def currencySymbols : List Char :=
  ['€', '$', '£', '¥', '₹', '₽', '₩', '₦', '₨', '₪', '₫', '₡', '₵', '₺',
   '₴', '₸', '₼', '₲', '₱', '₭', '₯', '₰', '₳', '₶', '₷', '₻', '₾', '₿', '⃀']

/-- The `(\d+(?:[.,]\d+)?)` amount group matched greedily at the head of
`cs`: digits, then optionally a single separator followed by digits. -/
def matchAmountAt (cs : List Char) : Option String :=
  let ds := cs.takeWhile Char.isDigit
  if ds.isEmpty then none
  else
    match cs.drop ds.length with
    | c :: r2 =>
      if c = '.' ∨ c = ',' then
        let fs := r2.takeWhile Char.isDigit
        if fs.isEmpty then some (String.mk ds)
        else some (String.mk (ds ++ c :: fs))
      else some (String.mk ds)
    | [] => some (String.mk ds)

/-- Leftmost match of `([€$£¥₹₽₩₦₨₪₫₡₵₺₴₸₼₲₱₭₯₰₳₶₷₹₻₽₾₿⃀])?\s*(\d+(?:[.,]\d+)?)`
(product_scraper.py line 176): at each position an optional currency
symbol, optional whitespace, then the amount group; the symbol and amount
groups of the first position that matches. -/
def searchPrice : List Char → Option (Option Char × String)
  | [] => none
  | c :: rest =>
    if currencySymbols.contains c then
      match matchAmountAt (rest.dropWhile isPyWs) with
      | some amt => some (some c, amt)
      | none => searchPrice rest
    else
      match matchAmountAt ((c :: rest).dropWhile isPyWs) with
      | some amt => some (none, amt)
      | none => searchPrice rest

/-- The `currency_map` symbol→code table (product_scraper.py lines 187-195). -/
def currencyMap : List (Char × String) :=
  [('€', "EUR"), ('$', "USD"), ('£', "GBP"), ('¥', "JPY"), ('₹', "INR"),
   ('₽', "RUB"), ('₩', "KRW")]

/-- First match of `re.findall(r'\d+(?:[.,]\d+)?', t)` (the fallback path,
product_scraper.py lines 205-211). -/
def findFirstNumber : List Char → Option String
  | [] => none
  | c :: rest =>
    if c.isDigit then matchAmountAt (c :: rest)
    else findFirstNumber rest

/-- `ProductScraper._parse_price` (src/src/scraper/product_scraper.py lines
168-216): whitespace collapse, the symbol/amount regex, comma→dot
normalisation, `float`, and the symbol→code table defaulting to `'EUR'`;
when the main regex finds nothing, the bare-number fallback with the
brand-default currency. `none` is the `return None` path. -/
def parsePrice (priceText : String) : Option (Dec × String) :=
  let t := collapseWs priceText
  match searchPrice t.toList with
  | some sa =>
    (parseFloatStr (strReplace sa.2 "," ".")).map (fun q =>
      (q, match sa.1 with
        | some c => (List.lookup c currencyMap).getD "EUR"
        | none => "EUR"))
  | none =>
    match findFirstNumber t.toList with
    | some amt => (parseFloatStr (strReplace amt "," ".")).map (fun q => (q, "EUR"))
    | none => none

theorem lookup_append_of_none {β : Type _} {k : String} {l1 l2 : List (String × β)}
    (h : List.lookup k l1 = none) : List.lookup k (l1 ++ l2) = List.lookup k l2 := by
  induction l1 with
  | nil => simp
  | cons a l ih =>
    rw [List.lookup] at h
    rcases hk : (k == a.1) with _ | _
    · simp only [List.cons_append, List.lookup, hk]
      exact ih (by simpa [hk] using h)
    · simp [hk] at h

theorem lookup_filter_of_none {β : Type _} {k : String} {l : List (String × β)}
    (p : String × β → Bool) (h : List.lookup k l = none) :
    List.lookup k (l.filter p) = none := by
  induction l with
  | nil => simp
  | cons a l ih =>
    rw [List.lookup] at h
    rcases hk : (k == a.1) with _ | _
    · have h' := ih (by simpa [hk] using h)
      by_cases hp : p a = true
      · simpa [List.filter_cons, hp, List.lookup, hk] using h'
      · simp only [List.filter_cons, hp]
        simpa using h'
    · simp [hk] at h

theorem dictSet_of_none {d : PyDict} {k : String} {v : PyVal}
    (h : List.lookup k d = none) : dictSet d k v = d ++ [(k, v)] := by
  simp [dictSet, h]

theorem chunks100Go_flatten :
    ∀ (n : Nat) (l : List String), l.length ≤ n → (chunks100Go n l).flatten = l := by
  intro n
  induction n with
  | zero =>
    intro l h
    have : l = [] := List.eq_nil_of_length_eq_zero (Nat.le_zero.mp h)
    simp [this, chunks100Go]
  | succ n ih =>
    intro l h
    match l with
    | [] => simp [chunks100Go]
    | a :: as =>
      have hd : (List.drop 100 (a :: as)).length ≤ n := by
        have := List.length_drop 100 (a :: as)
        omega
      simp only [chunks100Go, List.flatten_cons, ih _ hd]
      exact List.take_append_drop 100 (a :: as)

theorem chunks100_flatten (l : List String) : (chunks100 l).flatten = l :=
  chunks100Go_flatten l.length l (Nat.le_refl _)

theorem chunks100Go_mem :
    ∀ (n : Nat) (l : List String) (c : List String), c ∈ chunks100Go n l →
      c ≠ [] ∧ c.length ≤ 100 := by
  intro n
  induction n with
  | zero => intro l c h; simp [chunks100Go] at h
  | succ n ih =>
    intro l c h
    match l with
    | [] => simp [chunks100Go] at h
    | a :: as =>
      simp only [chunks100Go, List.mem_cons] at h
      rcases h with h | h
      · subst h
        refine ⟨by simp, ?_⟩
        have := List.length_take 100 (a :: as)
        omega
      · exact ih _ _ h

theorem chunks100_mem {l c : List String} (h : c ∈ chunks100 l) :
    c ≠ [] ∧ c.length ≤ 100 :=
  chunks100Go_mem l.length l c h

theorem attemptedIds_append (a b : List DelEv) :
    attemptedIds (a ++ b) = attemptedIds a ++ attemptedIds b := by
  simp [attemptedIds]

theorem attempted_processChunk (bulk : List String → HttpRes)
    (single : String → HttpRes) (c : List String) (x : String) :
    x ∈ attemptedIds (processChunk bulk single c).1 ↔ x ∈ c := by
  rcases h : bulk c with n | _
  · simp [processChunk, h, attemptedIds, delEvIds]
  · simp only [processChunk, h, attemptedIds, List.map_cons, delEvIds, List.map_map,
      List.flatten_cons]
    constructor
    · intro hx
      rcases List.mem_append.mp hx with hx | hx
      · exact hx
      · rcases List.mem_flatten.mp hx with ⟨s, hs, hxs⟩
        rcases List.mem_map.mp hs with ⟨y, hy, rfl⟩
        simp only [Function.comp, delEvIds] at hxs
        simpa [List.mem_singleton.mp hxs] using hy
    · intro hx
      exact List.mem_append.mpr (Or.inl hx)

theorem foldl_delete_events (bulk : List String → HttpRes) (single : String → HttpRes)
    (cs : List (List String)) :
    ∀ (a : List DelEv) (b : Nat),
      (cs.foldl (fun (st : List DelEv × Nat) chunk =>
        let r := processChunk bulk single chunk
        (st.1 ++ r.1, st.2 + r.2)) (a, b)).1 =
      a ++ (cs.map (fun c => (processChunk bulk single c).1)).flatten := by
  induction cs with
  | nil => intro a b; simp
  | cons c cs ih =>
    intro a b
    simp only [List.foldl_cons, List.map_cons, List.flatten_cons, ih, List.append_assoc]

theorem deleteMissing_events_eq (rows : List (Option String)) (cur : List String)
    (bulk : List String → HttpRes) (single : String → HttpRes) :
    (deleteMissingProducts rows cur bulk single).1 =
      ((chunks100 (toDeleteIds rows cur)).map
        (fun c => (processChunk bulk single c).1)).flatten := by
  unfold deleteMissingProducts
  by_cases he : (toDeleteIds rows cur).isEmpty
  · have : toDeleteIds rows cur = [] := List.isEmpty_iff.mp he
    simp [he, this, chunks100, chunks100Go]
  · simp only [he, if_false, Bool.false_eq_true]
    exact foldl_delete_events bulk single _ [] 0

theorem mem_toDeleteIds (rows : List (Option String)) (cur : List String) (x : String) :
    x ∈ toDeleteIds rows cur ↔ x ∈ existingIds rows ∧ x ∉ cur := by
  simp [toDeleteIds, List.mem_filter]

theorem mem_attempted_deleteMissing (rows : List (Option String)) (cur : List String)
    (bulk : List String → HttpRes) (single : String → HttpRes) (x : String) :
    x ∈ attemptedIds (deleteMissingProducts rows cur bulk single).1 ↔
      x ∈ toDeleteIds rows cur := by
  rw [deleteMissing_events_eq]
  have hmem : ∀ cs : List (List String),
      x ∈ attemptedIds ((cs.map (fun c => (processChunk bulk single c).1)).flatten) ↔
        ∃ c ∈ cs, x ∈ c := by
    intro cs
    induction cs with
    | nil => simp [attemptedIds]
    | cons c cs ih =>
      simp only [List.map_cons, List.flatten_cons, attemptedIds_append, List.mem_append,
        attempted_processChunk, ih, List.mem_cons]
      constructor
      · rintro (h | ⟨c', hc', hx⟩)
        · exact ⟨c, Or.inl rfl, h⟩
        · exact ⟨c', Or.inr hc', hx⟩
      · rintro ⟨c', hc' | hc', hx⟩
        · exact Or.inl (hc' ▸ hx)
        · exact Or.inr ⟨c', hc', hx⟩
  rw [hmem]
  constructor
  · rintro ⟨c, hc, hx⟩
    have h1 : x ∈ (chunks100 (toDeleteIds rows cur)).flatten :=
      List.mem_flatten.mpr ⟨c, hc, hx⟩
    rwa [chunks100_flatten] at h1
  · intro hx
    rw [← chunks100_flatten (toDeleteIds rows cur)] at hx
    exact List.mem_flatten.mp hx

/-- C3. Reconciliation exactness and retention: the reconciler attempts to
delete exactly the persisted ids absent from the successful-id list, never
issues a delete naming an id of the successful list, and is a no-op when
the difference is empty. -/
theorem c3_reconciliation_exact (rows : List (Option String)) (cur : List String)
    (bulk : List String → HttpRes) (single : String → HttpRes) :
    (∀ x, x ∈ attemptedIds (deleteMissingProducts rows cur bulk single).1 ↔
      (x ∈ existingIds rows ∧ x ∉ cur)) ∧
    (∀ x, x ∈ cur → x ∉ attemptedIds (deleteMissingProducts rows cur bulk single).1) ∧
    (toDeleteIds rows cur = [] → (deleteMissingProducts rows cur bulk single).1 = []) := by
  refine ⟨?_, ?_, ?_⟩
  · intro x
    rw [mem_attempted_deleteMissing, mem_toDeleteIds]
  · intro x hx hmem
    exact ((mem_attempted_deleteMissing rows cur bulk single x).mp hmem
      |> (mem_toDeleteIds rows cur x).mp).2 hx
  · intro h
    unfold deleteMissingProducts
    simp [h]

def c3rowsW : List (Option String) := [some "A", some "B", some "C"]

def c3curW : List String := ["B", "C", "D"]

/-- Witness for C3 at the spec's own example: persisted `{A,B,C}` against
successful `{B,C,D}` attempts exactly `A` and touches neither `B` nor `C`. -/
theorem c3_reconciliation_exact_witness :
    ("A" ∈ attemptedIds (deleteMissingProducts c3rowsW c3curW
        (fun _ => .status 204) (fun _ => .status 204)).1) ∧
    ¬("B" ∈ attemptedIds (deleteMissingProducts c3rowsW c3curW
        (fun _ => .status 204) (fun _ => .status 204)).1) ∧
    ¬("C" ∈ attemptedIds (deleteMissingProducts c3rowsW c3curW
        (fun _ => .status 204) (fun _ => .status 204)).1) := by
  refine ⟨?_, ?_, ?_⟩
  · exact ((c3_reconciliation_exact c3rowsW c3curW _ _).1 "A").mpr
      (by constructor <;> decide)
  · exact (c3_reconciliation_exact c3rowsW c3curW _ _).2.1 "B" (by decide)
  · exact (c3_reconciliation_exact c3rowsW c3curW _ _).2.1 "C" (by decide)

/-- C7 counterexample: a batch whose bulk delete fails with an HTTP error
status (500) is only logged — no per-id fallback delete is issued and
nothing is deleted, refuting "for every batch whose bulk delete fails, the
reconciler falls back to deleting that batch's ids one at a time". -/
theorem c7_counterexample :
    (deleteMissingProducts [some "A"] [] (fun _ => .status 500)
        (fun _ => .status 200)).1 = [.bulkDelete ["A"]] ∧
    (deleteMissingProducts [some "A"] [] (fun _ => .status 500)
        (fun _ => .status 200)).2 = 0 :=
  ⟨rfl, rfl⟩

/-- C7 (amended). Stale ids are deleted in batches of at most 100; a batch
whose bulk delete raises an exception falls back to per-id deletes issued
for every id of the batch (regardless of individual outcomes), while a
batch whose bulk delete returns a status — success or failure — issues no
per-id deletes. -/
theorem c7_batch_fallback (rows : List (Option String)) (cur : List String)
    (bulk : List String → HttpRes) (single : String → HttpRes) :
    (deleteMissingProducts rows cur bulk single).1 =
      ((chunks100 (toDeleteIds rows cur)).map
        (fun c => (processChunk bulk single c).1)).flatten ∧
    (chunks100 (toDeleteIds rows cur)).flatten = toDeleteIds rows cur ∧
    (∀ c ∈ chunks100 (toDeleteIds rows cur), c ≠ [] ∧ c.length ≤ 100) ∧
    (∀ c, bulk c = .exn →
      (processChunk bulk single c).1 = .bulkDelete c :: c.map .singleDelete) ∧
    (∀ c n, bulk c = .status n → (processChunk bulk single c).1 = [.bulkDelete c]) := by
  refine ⟨deleteMissing_events_eq rows cur bulk single, chunks100_flatten _,
    fun c hc => chunks100_mem hc, ?_, ?_⟩
  · intro c hc
    simp [processChunk, hc]
  · intro c n hc
    simp [processChunk, hc]

/-- Witness for C7 (amended): a two-id difference where the bulk delete
raises, so both ids are retried individually. -/
theorem c7_batch_fallback_witness :
    (processChunk (fun _ => HttpRes.exn) (fun _ => HttpRes.status 204) ["A", "B"]).1 =
      [.bulkDelete ["A", "B"], .singleDelete "A", .singleDelete "B"] :=
  (c7_batch_fallback [some "A", some "B"] [] (fun _ => .exn)
    (fun _ => .status 204)).2.2.2.1 ["A", "B"] rfl

/-- Specification-side deduplication (the spec's "each URL exactly once,
in first-seen order"): keep each element's first occurrence. -/
def keepFirst : List String → List String
  | [] => []
  | u :: l => u :: keepFirst (l.filter (fun v => v != u))
termination_by l => l.length
decreasing_by
  simp only [List.length_cons]
  exact Nat.lt_succ_of_le (List.length_filter_le _ _)

/-- Accumulator form of the dedup fold: the elements of `l` not already in
`acc`, first occurrences only. -/
def fsdAux : List String → List String → List String
  | [], _ => []
  | u :: l, acc => if acc.contains u then fsdAux l acc else u :: fsdAux l (acc ++ [u])

theorem foldl_insNew_eq (l : List String) :
    ∀ acc : List String, l.foldl insNew acc = acc ++ fsdAux l acc := by
  induction l with
  | nil => intro acc; simp [fsdAux]
  | cons u l ih =>
    intro acc
    by_cases h : u ∈ acc
    · simp [insNew, fsdAux, h, ih]
    · simp [insNew, fsdAux, h, ih (acc ++ [u])]

theorem fsdAux_eq_keepFirst (l : List String) :
    ∀ acc : List String, fsdAux l acc = keepFirst (l.filter (fun v => !acc.contains v)) := by
  induction l with
  | nil => intro acc; simp [fsdAux, keepFirst]
  | cons u l ih =>
    intro acc
    by_cases h : u ∈ acc
    · rw [fsdAux, if_pos (by simpa using h), ih acc]
      have hf : (u :: l).filter (fun v => !acc.contains v) =
          l.filter (fun v => !acc.contains v) := by
        simp [List.filter_cons, h]
      rw [hf]
    · rw [fsdAux, if_neg (by simpa using h), ih (acc ++ [u])]
      have hf : (u :: l).filter (fun v => !acc.contains v) =
          u :: l.filter (fun v => !acc.contains v) := by
        simp [List.filter_cons, h]
      rw [hf, keepFirst]
      congr 1
      rw [List.filter_filter]
      congr 1
      apply List.filter_congr
      intro a _
      by_cases h1 : a ∈ acc <;> by_cases h2 : a = u <;>
        simp [h1, h2, List.elem_eq_mem]

theorem firstSeenDedup_eq_keepFirst (l : List String) :
    firstSeenDedup l = keepFirst l := by
  rw [firstSeenDedup, foldl_insNew_eq l [], fsdAux_eq_keepFirst l []]
  simp

theorem mem_keepFirst (l : List String) : ∀ x : String, x ∈ keepFirst l ↔ x ∈ l := by
  induction l using keepFirst.induct with
  | case1 => simp [keepFirst]
  | case2 u l ih =>
    intro x
    rw [keepFirst]
    simp only [List.mem_cons, ih]
    constructor
    · rintro (rfl | hx)
      · exact Or.inl rfl
      · exact Or.inr (List.mem_of_mem_filter hx)
    · rintro (rfl | hx)
      · exact Or.inl rfl
      · by_cases hxu : x = u
        · exact Or.inl hxu
        · exact Or.inr (List.mem_filter.mpr ⟨hx, by simp [hxu]⟩)

theorem keepFirst_nodup (l : List String) : (keepFirst l).Nodup := by
  induction l using keepFirst.induct with
  | case1 => simp [keepFirst]
  | case2 u l ih =>
    rw [keepFirst]
    refine List.nodup_cons.mpr ⟨?_, ih⟩
    intro hmem
    have h1 := (mem_keepFirst _ u).mp hmem
    have h2 := (List.mem_filter.mp h1).2
    simp at h2

theorem keepFirst_sublist (l : List String) : (keepFirst l).Sublist l := by
  induction l using keepFirst.induct with
  | case1 => simp [keepFirst]
  | case2 u l ih =>
    rw [keepFirst]
    exact List.Sublist.cons₂ u (ih.trans (List.filter_sublist l))

def c4anchor : Elem := { name := "a", attrs := [("href", "/product/item-1/")] }

def c4soupPage1 : Soup := {
  anchorsProduct := [c4anchor]
  ldJsonScripts := [some (.pdict
    [("url", .pstr "https://www.stories.com/product/item-1/?ref=a")])] }

def c4fetch : String → Option Soup := fun u =>
  if u = CATEGORY_URL then some c4soupPage1 else none

/-- C4 counterexample: a listing whose page carries both an anchor link and
a structured-data `url` for the same product, the latter with a query
string. Both survive into the returned list: the structured-data candidate
is appended verbatim (unnormalised), so the normalised URL
`…/product/item-1/` is represented twice and one returned entry is not
query-stripped — refuting "contains each normalized URL exactly once". -/
theorem c4_counterexample :
    getAllProductUrls c4fetch none =
      ["https://www.stories.com/product/item-1/",
       "https://www.stories.com/product/item-1/?ref=a"] ∧
    stripAfter "?" (stripAfter "#" "https://www.stories.com/product/item-1/?ref=a") =
      "https://www.stories.com/product/item-1/" ∧
    ("https://www.stories.com/product/item-1/?ref=a" : String) ≠
      "https://www.stories.com/product/item-1/" :=
  ⟨rfl, rfl, by decide⟩

/-- C4 (amended). The returned list contains each accumulated URL string
exactly once, in first-seen order — anchor-method candidates having been
normalised and structured-data candidates appended verbatim: without a
limit the result is exactly the first-occurrence deduplication of the raw
gathered list, and with any limit it is a duplicate-free order-preserving
sublist of the raw list. -/
theorem c4_dedup_invariant (fetch : String → Option Soup) :
    getAllProductUrls fetch none = keepFirst (rawGathered fetch none) ∧
    ∀ limit : Option Nat, (getAllProductUrls fetch limit).Nodup ∧
      (getAllProductUrls fetch limit).Sublist (rawGathered fetch limit) := by
  constructor
  · rw [getAllProductUrls]
    simp [limitTruthy, firstSeenDedup_eq_keepFirst]
  · intro limit
    rw [getAllProductUrls]
    have hnd : (firstSeenDedup (rawGathered fetch limit)).Nodup := by
      rw [firstSeenDedup_eq_keepFirst]; exact keepFirst_nodup _
    have hsub : (firstSeenDedup (rawGathered fetch limit)).Sublist (rawGathered fetch limit) := by
      rw [firstSeenDedup_eq_keepFirst]; exact keepFirst_sublist _
    by_cases hc : (limitTruthy limit &&
        decide (limit.getD 0 < (firstSeenDedup (rawGathered fetch limit)).length)) = true
    · simp only [hc, if_true]
      exact ⟨hnd.sublist (List.take_sublist _ _), (List.take_sublist _ _).trans hsub⟩
    · simp only [hc, if_false, Bool.false_eq_true]
      exact ⟨hnd, hsub⟩

def soupC5page1 : Soup := {
  ldJsonScripts := [some (.pdict [("url", .pstr "https://www.stories.com/product/dup-1/")]),
                    some (.pdict [("url", .pstr "https://www.stories.com/product/dup-1/")])] }

def soupC5page2 : Soup := {
  ldJsonScripts := [some (.pdict [("url", .pstr "https://www.stories.com/product/fresh-2/")])] }

def c5fetch : String → Option Soup := fun u =>
  if u = CATEGORY_URL then some soupC5page1
  else if u = CATEGORY_URL ++ "?page=2" then some soupC5page2
  else none

/-- The JSON-LD Product block of the C1 page: structured title
`Silk Dress`, price 120.00 EUR, and an image. -/
def jldC1 : PyDict :=
  [("@type", .pstr "Product"), ("name", .pstr "Silk Dress"),
   ("offers", .pdict [("price", .pstr "120.00"), ("priceCurrency", .pstr "EUR")]),
   ("image", .plist [.pstr "https://media.stories.com/a.jpg"])]

/-- A detail page carrying both the JSON-LD Product block `jldC1` and
conflicting social/commerce meta tags (og:title `Meta Title`,
product:price:amount `99.95` USD, og:image, og:description). -/
def soupC1 : Soup := {
  ldJsonScripts := [some (.pdict jldC1)]
  metaOgTitle := some { name := "meta", attrs := [("content", "Meta Title")] }
  metaPriceAmount := some { name := "meta", attrs := [("content", "99.95")] }
  metaPriceCurrency := some { name := "meta", attrs := [("content", "USD")] }
  metaOgImage := some { name := "meta", attrs := [("content", "https://media.stories.com/meta.jpg")] }
  metaOgDescription := some { name := "meta", attrs := [("content", "Meta description")] } }

def urlC1 : String := "https://www.stories.com/en-eu/product/silk-dress-1234567/"

/-- C1 (code bug). On a page whose parseable JSON-LD Product block (title
`Silk Dress`, price 120.00) coexists with conflicting meta tags (og:title
`Meta Title`, product:price:amount `99.95`), `scrape_product` returns the
meta-tag title and price: because the else-branch at scraper.py:534 is
attached to the image check instead of the JSON-LD check, the meta tags
overwrite the structured values whenever the block supplied an image —
the opposite of the documented JSON-LD priority. -/
theorem c1_meta_overwrites_jsonld :
    findProductLd soupC1.ldJsonScripts = some jldC1 ∧
    List.lookup "name" jldC1 = some (.pstr "Silk Dress") ∧
    (scrapeProduct (some soupC1) urlC1 "T").isSome = true ∧
    List.lookup "title" ((scrapeProduct (some soupC1) urlC1 "T").getD []) =
      some (.pstr "Meta Title") ∧
    List.lookup "price" ((scrapeProduct (some soupC1) urlC1 "T").getD []) =
      some (.pfloat ⟨9995, 2⟩) ∧
    List.lookup "currency" ((scrapeProduct (some soupC1) urlC1 "T").getD []) =
      some (.pstr "USD") ∧
    Dec.toRat ⟨9995, 2⟩ = 9995 / 100 ∧ ((9995 : Rat) / 100 ≠ 120) ∧
    ("Meta Title" : String) ≠ "Silk Dress" := by
  refine ⟨rfl, rfl, rfl, rfl, rfl, rfl, by norm_num [Dec.toRat], by norm_num, by decide⟩

/-- The JSON-LD Product block of the C2 page: a title and a price but no
image field. -/
def jldC2 : PyDict :=
  [("@type", .pstr "Product"), ("name", .pstr "Test Coat"),
   ("offers", .pdict [("price", .pstr "49"), ("priceCurrency", .pstr "EUR")])]

/-- A detail page with a JSON-LD Product block but no image anywhere: no
image meta tags, no img elements. -/
def soupC2 : Soup := { ldJsonScripts := [some (.pdict jldC2)] }

def urlC2 : String := "https://www.stories.com/en-eu/product/test-coat-123/"

/-- C2 (code bug). A page from which a title (`Test Coat`) and an id
(numeric suffix 123) are resolved but no image URL is found by any method
makes `scrape_product` return `None` instead of an image-less record: the
validation comment at scraper.py:578-581 says the product should be saved
without an embedding, but line 584 reads `product_data['image_url']`,
which raises `KeyError` because the key was never set, and the outer
handler turns that into `None`. -/
theorem c2_missing_image_rejects_record :
    findProductLd soupC2.ldJsonScripts = some jldC2 ∧
    List.lookup "name" jldC2 = some (.pstr "Test Coat") ∧
    extractProductId urlC2 = some "123" ∧
    fallbackImage soupC2 = none ∧
    scrapeProduct (some soupC2) urlC2 "T" = none := by
  refine ⟨rfl, rfl, rfl, rfl, rfl⟩

/-- C9. The markup-fallback price parser maps `"€49,90"` to 49.90 EUR,
`"$49.99"` to 49.99 USD, and symbol-less `"49"` to 49.0 with the brand
default currency EUR — the comma separator is normalised to a dot and the
symbol is resolved through the lookup table. -/
theorem c9_price_parsing :
    parsePrice "€49,90" = some (⟨4990, 2⟩, "EUR") ∧
    Dec.toRat ⟨4990, 2⟩ = 499 / 10 ∧
    parsePrice "$49.99" = some (⟨4999, 2⟩, "USD") ∧
    Dec.toRat ⟨4999, 2⟩ = 4999 / 100 ∧
    parsePrice "49" = some (⟨49, 0⟩, "EUR") ∧
    Dec.toRat ⟨49, 0⟩ = 49 := by
  refine ⟨rfl, by norm_num [Dec.toRat], rfl, by norm_num [Dec.toRat], rfl,
    by norm_num [Dec.toRat]⟩

theorem limitReached_ge {l : Nat} {acc : List String}
    (h : limitReached (some l) acc = true) : l ≤ acc.length := by
  simp [limitReached, limitTruthy] at h
  exact h.2

theorem gatherPages_stop_ge (fetch : String → Option Soup) (l : Nat) :
    ∀ (fuel page : Nat) (acc : List String),
      (gatherPages fetch (some l) fuel page acc).2 = true →
      l ≤ (gatherPages fetch (some l) fuel page acc).1.length := by
  intro fuel
  induction fuel with
  | zero => intro page acc h; simp [gatherPages] at h
  | succ n ih =>
    intro page acc h
    rw [gatherPages] at h ⊢
    by_cases hpe : (getProductsFromCategoryPage fetch CATEGORY_URL page).isEmpty = true
    · rw [if_pos hpe] at h
      simp at h
    · rw [if_neg hpe] at h ⊢
      by_cases hc : limitReached (some l)
          (acc ++ getProductsFromCategoryPage fetch CATEGORY_URL page) = true
      · rw [if_pos hc] at h ⊢
        exact limitReached_ge hc
      · rw [if_neg hc] at h ⊢
        exact ih (page + 1) _ h

/-- C5 counterexample: with limit 2, a first listing page whose structured
data yields the same product URL twice makes the raw (duplicate-inflated)
count reach the limit, so pagination stops with only one unique URL
gathered even though page 2 holds a further product — refuting "at least
`limit` unique normalized URLs have already been gathered". -/
theorem c5_counterexample :
    stoppedAtLimit c5fetch (some 2) = true ∧
    getAllProductUrls c5fetch (some 2) = ["https://www.stories.com/product/dup-1/"] ∧
    (firstSeenDedup (rawGathered c5fetch (some 2))).length = 1 ∧
    getProductsFromCategoryPage c5fetch CATEGORY_URL 2 =
      ["https://www.stories.com/product/fresh-2/"] :=
  ⟨rfl, rfl, rfl, rfl⟩

/-- C5 (amended). For a positive limit the returned list never exceeds the
limit, but the pagination stop compares the limit against the raw
duplicate-inflated count: when the loop stops at the limit check, only
the raw gathered list — not the unique one — is guaranteed to hold at
least `limit` URLs. -/
theorem c5_limit_behaviour (fetch : String → Option Soup) (l : Nat) (hl : 0 < l) :
    (getAllProductUrls fetch (some l)).length ≤ l ∧
    (stoppedAtLimit fetch (some l) = true →
      l ≤ (rawGathered fetch (some l)).length) := by
  constructor
  · rw [getAllProductUrls]
    by_cases hc : (limitTruthy (some l) &&
        decide ((some l : Option Nat).getD 0 <
          (firstSeenDedup (rawGathered fetch (some l))).length)) = true
    · rw [if_pos hc]
      simp
    · rw [if_neg hc]
      simp only [limitTruthy, Bool.and_eq_true, decide_eq_true_eq, not_and, Option.getD_some,
        not_lt] at hc
      exact hc (by omega)
  · intro h
    exact gatherPages_stop_ge fetch l 20 1 [] h

/-- Witness for C5 (amended) at the counterexample run. -/
theorem c5_limit_behaviour_witness :
    (getAllProductUrls c5fetch (some 2)).length ≤ 2 ∧
    2 ≤ (rawGathered c5fetch (some 2)).length :=
  ⟨(c5_limit_behaviour c5fetch 2 (by decide)).1,
   (c5_limit_behaviour c5fetch 2 (by decide)).2 rfl⟩

/-- A detail page with only an og:image meta tag: no JSON-LD block, no
title sources, no other image sources. -/
def soupC6 : Soup := {
  metaOgImage := some { name := "meta", attrs := [("content", "https://media.stories.com/i.jpg")] } }

/-- A product URL without a numeric suffix, so the id-pattern regex finds
nothing and the hash fallback id is used. -/
def urlC6 : String := "https://www.stories.com/product/item/"

/-- C6 counterexample: a detail page yielding no title by any tier (no
JSON-LD block, no og:title, no title element) and no regex-resolvable id,
but carrying an image, is NOT rejected: `scrape_product` returns a record
(with a hash-fallback id and no title key at all), refuting "returns null
regardless of which other fields are present". -/
theorem c6_counterexample :
    findProductLd soupC6.ldJsonScripts = none ∧
    soupC6.metaOgTitle = none ∧ soupC6.titleElem = none ∧
    extractProductId urlC6 = none ∧
    (scrapeProduct (some soupC6) urlC6 "T").isSome = true ∧
    List.lookup "title" ((scrapeProduct (some soupC6) urlC6 "T").getD []) = none :=
  ⟨rfl, rfl, rfl, rfl, rfl, rfl⟩

/-- C6 (amended). `scrape_product` has no required-field validation for
title or id: an id is always resolved (hash fallback when the URL has no
numeric suffix) and a missing title is simply never set when no JSON-LD
block exists. For a page yielding no title by any tier and no
regex-resolvable id, the result is a record whenever any image URL is
found (and that record has a fallback-hash id and no title); the record
is rejected only when no image is found — via the image-normalisation
`KeyError`, not via validation. -/
theorem c6_no_required_field_rejection (soup : Soup) (url now : String)
    (hld : findProductLd soup.ldJsonScripts = none)
    (hot : soup.metaOgTitle = none) (htt : soup.titleElem = none)
    (hid : extractProductId url = none) :
    ((scrapeProduct (some soup) url now).isSome ↔ (fallbackImage soup).isSome) ∧
    (∀ pd, scrapeProduct (some soup) url now = some pd →
      List.lookup "title" pd = none ∧
      List.lookup "id" pd = some (.pstr ("otherstories_" ++
        toString (pyHashModel url % 10 ^ 10)))) := by
  have _ := hot
  have _ := htt
  have himgt : dictGetTruthy (dictSet (initialProductData url) "id"
      (PyVal.pstr (resolvedId url))) "image_url" = false := rfl
  have hgi : dictGet (dictSet (initialProductData url) "id"
      (PyVal.pstr (resolvedId url))) "image_url" = none := rfl
  constructor
  · simp only [scrapeProduct, scrapeProductBody, hld, imageOrMetaBranch, Option.some_bind,
      himgt, Bool.false_eq_true, if_false]
    cases hfb : fallbackImage soup with
    | none => exact iff_of_false (by simp [normalizeImageStage, hgi]) (by simp)
    | some u => exact iff_of_true rfl rfl
  · intro pd h
    simp only [scrapeProduct, scrapeProductBody, hld, imageOrMetaBranch, Option.some_bind,
      himgt, Bool.false_eq_true, if_false] at h
    cases hfb : fallbackImage soup with
    | none =>
      rw [hfb] at h
      simp [normalizeImageStage, hgi] at h
    | some u =>
      rw [hfb] at h
      have h1 := congrArg (fun o => List.lookup "title" (Option.getD o [])) h
      have h2 := congrArg (fun o => List.lookup "id" (Option.getD o [])) h
      simp only [Option.getD_some] at h1 h2
      constructor
      · rw [← h1]; rfl
      · rw [← h2]
        rw [show ("otherstories_" ++ toString (pyHashModel url % 10 ^ 10)) = resolvedId url by
          rw [resolvedId, hid]]
        rfl

/-- Witness for C6 (amended): on a page with no title, no numeric id and
no image at all, the record is indeed rejected (through the image path). -/
theorem c6_no_required_field_rejection_witness :
    ¬(scrapeProduct (some ({} : Soup)) urlC6 "T").isSome = true := by
  intro hcontra
  have h := (c6_no_required_field_rejection {} urlC6 "T" rfl rfl rfl rfl).1.mp hcontra
  exact absurd h (by decide)

theorem payload_no_embedding (pd : PyDict) (now : String)
    (h : dictGet pd "embedding" = none) :
    List.lookup "embedding" (supabasePayload pd now) = none := by
  simp only [supabasePayload, h]
  apply lookup_filter_of_none
  rfl

theorem payload_embedding_some (pd : PyDict) (now : String) (xs : List PyVal)
    (h : dictGet pd "embedding" = none) (hxs : xs ≠ []) :
    List.lookup "embedding"
      (supabasePayload (pd ++ [("embedding", PyVal.plist xs)]) now) =
      some (.pstr (formatEmbedding xs)) := by
  have hget : dictGet (pd ++ [("embedding", PyVal.plist xs)]) "embedding" =
      some (.plist xs) := by
    rw [dictGet, lookup_append_of_none h]
    rfl
  have htr : (PyVal.plist xs).truthy = true := by
    simp [PyVal.truthy, hxs]
  simp only [supabasePayload, hget, htr, if_true]
  rw [List.filter_append]
  rw [lookup_append_of_none (lookup_filter_of_none _ (by rfl))]
  rfl

/-- C8. The embedding dimensionality gate: a computed vector whose length
is not 768 makes `generate_embedding` return `None` and the persisted
payload carry no `embedding` field at all; conversely, whenever the
persisted payload carries an `embedding` field, it is the formatted
rendering of a vector of length exactly 768. -/
theorem c8_embedding_gate (pd : PyDict) (v : List Dec) (now : String)
    (h : dictGet pd "embedding" = none) :
    (v.length ≠ 768 →
      generateEmbedding (.vec v) = none ∧
      List.lookup "embedding" (supabasePayload (attachEmbedding pd (.vec v)) now) = none) ∧
    (∀ s, List.lookup "embedding"
        (supabasePayload (attachEmbedding pd (.vec v)) now) = some s →
      ∃ emb : List Dec, emb.length = 768 ∧ generateEmbedding (.vec v) = some emb ∧
        s = .pstr (formatEmbedding (emb.map .pfloat))) := by
  constructor
  · intro hlen
    have hge : generateEmbedding (.vec v) = none := by
      simp [generateEmbedding, hlen]
    refine ⟨hge, ?_⟩
    rw [attachEmbedding, hge]
    exact payload_no_embedding pd now h
  · intro s hs
    by_cases hlen : v.length = 768
    · have hge : generateEmbedding (.vec v) = some v := by
        simp [generateEmbedding, hlen]
      have hvne : v ≠ [] := by
        intro hnil
        rw [hnil] at hlen
        simp at hlen
      have hne : v.isEmpty = false := by
        cases v with
        | nil => exact absurd rfl hvne
        | cons a as => rfl
      simp only [attachEmbedding, hge, hne, Bool.false_eq_true, if_false] at hs
      rw [dictSet_of_none h, payload_embedding_some pd now (v.map .pfloat) h
        (by simp [hvne])] at hs
      exact ⟨v, hlen, hge, (Option.some.inj hs).symm⟩
    · have hge : generateEmbedding (.vec v) = none := by
        simp [generateEmbedding, hlen]
      rw [attachEmbedding, hge, payload_no_embedding pd now h] at hs
      exact absurd hs (by simp)

def c8pdW : PyDict := [("id", .pstr "otherstories_1")]

/-- Witness for C8: a 512-long vector is gated out and the payload has no
embedding field. -/
theorem c8_embedding_gate_witness :
    generateEmbedding (.vec (List.replicate 512 ⟨0, 0⟩)) = none ∧
    List.lookup "embedding" (supabasePayload
      (attachEmbedding c8pdW (.vec (List.replicate 512 ⟨0, 0⟩))) "T") = none :=
  (c8_embedding_gate c8pdW (List.replicate 512 ⟨0, 0⟩) "T" rfl).1 (by decide)

theorem runStep_events (testMode : Bool) (st : List String × List RunEv) (o : UrlOutcome)
    (h : ∀ ev ∈ st.2, ∃ pid, ev = RunEv.upsert pid) :
    ∀ ev ∈ (runStep testMode st o).2, ∃ pid, ev = RunEv.upsert pid := by
  intro ev hev
  rcases hrec : o.record with _ | pd
  · rw [runStep, hrec] at hev
    exact h ev hev
  · rw [runStep, hrec] at hev
    cases testMode with
    | true =>
      simp only [if_true] at hev
      exact h ev hev
    | false =>
      simp only [Bool.false_eq_true, if_false] at hev
      by_cases hins : o.insertOk = true
      · simp only [hins, if_true] at hev
        rcases List.mem_append.mp hev with hev | hev
        · exact h ev hev
        · exact ⟨_, List.mem_singleton.mp hev⟩
      · simp only [hins, Bool.false_eq_true, if_false] at hev
        rcases List.mem_append.mp hev with hev | hev
        · exact h ev hev
        · exact ⟨_, List.mem_singleton.mp hev⟩

theorem runLoop_events_upserts (testMode : Bool) (outcomes : List UrlOutcome) :
    ∀ ev ∈ (runLoop testMode outcomes).2, ∃ pid, ev = RunEv.upsert pid := by
  rw [runLoop]
  have hgen : ∀ (st : List String × List RunEv),
      (∀ ev ∈ st.2, ∃ pid, ev = RunEv.upsert pid) →
      ∀ ev ∈ (outcomes.foldl (runStep testMode) st).2, ∃ pid, ev = RunEv.upsert pid := by
    induction outcomes with
    | nil => intro st h; exact h
    | cons o os ih =>
      intro st h
      exact ih _ (runStep_events testMode st o h)
  exact hgen ([], []) (by simp)

/-- C10. A run in which the scraping loop accumulates no successful ids
never invokes the reconciliation step and issues no delete request of
either kind — previously persisted records are left untouched. -/
theorem c10_no_delete_on_empty_success (testMode : Bool) (outcomes : List UrlOutcome)
    (rows : List (Option String)) (bulk : List String → HttpRes)
    (single : String → HttpRes)
    (h : (runTrace testMode outcomes rows bulk single).2 = []) :
    RunEv.reconcile ∉ (runTrace testMode outcomes rows bulk single).1 ∧
    (∀ ids, RunEv.bulkDelete ids ∉ (runTrace testMode outcomes rows bulk single).1) ∧
    (∀ i, RunEv.singleDelete i ∉ (runTrace testMode outcomes rows bulk single).1) := by
  have h2 : (runTrace testMode outcomes rows bulk single).2 =
      (runLoop testMode outcomes).1 := by
    rw [runTrace]
    by_cases hc : (!testMode && !(runLoop testMode outcomes).1.isEmpty) = true
    · rw [if_pos hc]
    · rw [if_neg hc]
  have hids : (runLoop testMode outcomes).1 = [] := h2 ▸ h
  have htrace : (runTrace testMode outcomes rows bulk single).1 =
      (runLoop testMode outcomes).2 := by
    rw [runTrace, hids]
    simp
  refine ⟨?_, ?_, ?_⟩
  · rw [htrace]
    intro hmem
    obtain ⟨pid, hpid⟩ := runLoop_events_upserts testMode outcomes _ hmem
    exact RunEv.noConfusion hpid
  · intro ids
    rw [htrace]
    intro hmem
    obtain ⟨pid, hpid⟩ := runLoop_events_upserts testMode outcomes _ hmem
    exact RunEv.noConfusion hpid
  · intro i
    rw [htrace]
    intro hmem
    obtain ⟨pid, hpid⟩ := runLoop_events_upserts testMode outcomes _ hmem
    exact RunEv.noConfusion hpid

/-- Witness for C10: a run whose single page fails to scrape collects no
ids and issues no reconcile or delete events. -/
theorem c10_no_delete_on_empty_success_witness :
    RunEv.reconcile ∉ (runTrace false [{ record := none }] [some "A"]
      (fun _ => HttpRes.status 204) (fun _ => HttpRes.status 204)).1 :=
  (c10_no_delete_on_empty_success false [{ record := none }] [some "A"]
    (fun _ => .status 204) (fun _ => .status 204) rfl).1
